import Mathlib

/-!
Verification of the SQL authorization and execution pipeline of the
mysql-mcp-server repository.

The TypeScript sources are shallowly embedded: JavaScript strings are
modelled as `List Char` (one entry per UTF-16 code unit; every string the
pipeline manipulates stays inside the basic multilingual plane, where code
units and code points coincide), the regular-expression rewrites of
`query-parser.ts` are modelled by equivalent recursive scanners (uppercasing
is modelled on the ASCII range, which is all the keyword machinery inspects),
and the `enum` types become inductive types.  Each definition is translated
from one source function and is named after it.
-/

set_option maxRecDepth 20000

namespace MySQLMCP

/-- JavaScript strings, one entry per code unit. -/
abbrev Str := List Char

/-- A single-quote character (used to build SQL text containing literals). -/
def sq : Char := '\''

/-- Characters matched by the JavaScript regular-expression class `\s`
(also the set trimmed by `String.prototype.trim`). -/
def isJsSpace (c : Char) : Bool :=
  (9 ≤ c.toNat && c.toNat ≤ 13) || c.toNat = 32 || c.toNat = 0xa0 ||
  c.toNat = 0x1680 || (0x2000 ≤ c.toNat && c.toNat ≤ 0x200a) ||
  c.toNat = 0x2028 || c.toNat = 0x2029 || c.toNat = 0x202f ||
  c.toNat = 0x205f || c.toNat = 0x3000 || c.toNat = 0xfeff

/-- Characters matched by the JavaScript word class `\w` (for `\b` boundaries). -/
def isWordChar (c : Char) : Bool :=
  c.isAlphanum || c = '_'

/-- `String.prototype.trim`: drop `\s` characters from both ends. -/
def jsTrim (s : Str) : Str :=
  ((s.dropWhile isJsSpace).reverse.dropWhile isJsSpace).reverse

lemma length_dropWhile_le (p : Char → Bool) (s : Str) :
    (s.dropWhile p).length ≤ s.length := by
  induction s with
  | nil => simp
  | cons c rest ih =>
    by_cases h : p c <;> simp [List.dropWhile_cons, h] <;> omega

/-- First pass of `removeComments` (query-parser.ts line 46): the global
replacement of `--[^\n]*` by the empty string.  Each `--` starts a span that
extends up to, but not including, the next newline. -/
def removeLineComments : Str → Str
  | [] => []
  | [c] => [c]
  | a :: b :: rest =>
    if a = '-' ∧ b = '-' then removeLineComments (rest.dropWhile (fun c => c ≠ '\n'))
    else a :: removeLineComments (b :: rest)
termination_by s => s.length
decreasing_by
  · have := length_dropWhile_le (fun c => c ≠ '\n') rest
    simp only [List.length_cons]
    omega
  · simp [List.length_cons]

/-- Text after the first `*/`, if any (the lazy `[\s\S]*?\*\//` tail). -/
def dropToBlockEnd : Str → Option Str
  | [] => none
  | [_] => none
  | a :: b :: rest =>
    if a = '*' ∧ b = '/' then some rest else dropToBlockEnd (b :: rest)

lemma dropToBlockEnd_length :
    ∀ (s t : Str), dropToBlockEnd s = some t → t.length + 2 ≤ s.length := by
  intro s
  induction s with
  | nil => intro t h; simp [dropToBlockEnd] at h
  | cons a rest ih =>
    intro t h
    match rest, h with
    | [], h => simp [dropToBlockEnd] at h
    | b :: r, h =>
      simp only [dropToBlockEnd] at h
      by_cases hab : a = '*' ∧ b = '/'
      · rw [if_pos hab] at h
        cases h
        simp
      · rw [if_neg hab] at h
        have := ih t h
        simp only [List.length_cons] at this ⊢
        omega

/-- Second pass of `removeComments` (query-parser.ts line 49): the global
replacement of `\/\*[\s\S]*?\*\//g` by the empty string.  A `/*` with no
later `*/` is not a match and is kept, as with the JavaScript regex. -/
def removeBlockComments : Str → Str
  | [] => []
  | [c] => [c]
  | a :: b :: rest =>
    if a = '/' ∧ b = '*' then
      match h : dropToBlockEnd rest with
      | some rest2 => removeBlockComments rest2
      | none => a :: removeBlockComments (b :: rest)
    else a :: removeBlockComments (b :: rest)
termination_by s => s.length
decreasing_by
  · have := dropToBlockEnd_length rest rest2 h
    simp only [List.length_cons]
    omega
  · simp [List.length_cons]
  · simp [List.length_cons]

/-- `removeComments` (query-parser.ts lines 44-52): line comments are removed
first over the whole text, then block comments over the result. -/
def removeComments (query : Str) : Str :=
  removeBlockComments (removeLineComments query)

/-- One step of the global replacement of `\s+` by a single space. -/
def collapseWs : Str → Str
  | [] => []
  | c :: rest =>
    if isJsSpace c then ' ' :: collapseWs (rest.dropWhile isJsSpace)
    else c :: collapseWs rest
termination_by s => s.length
decreasing_by
  · have := length_dropWhile_le isJsSpace rest
    simp only [List.length_cons]
    omega
  · simp [List.length_cons]

/-- `normalizeWhitespace` (query-parser.ts lines 57-65): trim, then collapse
every whitespace run to a single space. -/
def normalizeWhitespace (query : Str) : Str :=
  collapseWs (jsTrim query)

/-- `normalizeQuery` (query-parser.ts lines 70-74). -/
def normalizeQuery (query : Str) : Str :=
  normalizeWhitespace (removeComments query)

/-- `String.prototype.split` with a single-character separator: every
occurrence is a boundary and empty segments are kept. -/
def splitChar (sep : Char) : Str → List Str
  | [] => [[]]
  | c :: rest =>
    if c = sep then [] :: splitChar sep rest
    else
      match splitChar sep rest with
      | [] => [[c]]
      | u :: us => (c :: u) :: us

/-- `splitStatements` (query-parser.ts lines 79-87): split on `;`, trim each
segment, drop the empty ones. -/
def splitStatements (query : Str) : List Str :=
  ((splitChar ';' query).map jsTrim).filter (fun stmt => !stmt.isEmpty)

/-- `statement.toUpperCase()`, modelled characterwise (ASCII-faithful, which
covers every character the keyword table and the CTE regex inspect). -/
def toUpperStr (s : Str) : Str :=
  s.map Char.toUpper

/-- `upper.split(/\s+/)` followed by `words[0] || ''`: the leading run of
non-whitespace characters (empty when the text starts with whitespace). -/
def firstWord (s : Str) : Str :=
  s.takeWhile (fun c => !isJsSpace c)

/-- Whether the word `w` occurs at the current position with `\b` boundaries
on both sides; `prev` is the character immediately before the position. -/
def wordAt (w : Str) (prev : Option Char) (s : Str) : Bool :=
  (match prev with
   | none => true
   | some c => !isWordChar c) &&
  w.isPrefixOf s &&
  (match s.drop w.length with
   | [] => true
   | c :: _ => !isWordChar c)

/-- The alternation `\b(SELECT|INSERT|UPDATE|DELETE)\b` tested at the current
position. -/
def dmlAt (prev : Option Char) (s : Str) : Option Str :=
  if wordAt ("SELECT".data) prev s then some ("SELECT".data)
  else if wordAt ("INSERT".data) prev s then some ("INSERT".data)
  else if wordAt ("UPDATE".data) prev s then some ("UPDATE".data)
  else if wordAt ("DELETE".data) prev s then some ("DELETE".data)
  else none

/-- Leftmost whole-word occurrence of one of the four DML keywords. -/
def findDML (prev : Option Char) : Str → Option Str
  | [] => none
  | c :: rest =>
    match dmlAt prev (c :: rest) with
    | some kw => some kw
    | none => findDML (some c) rest

/-- The regex `/\bWITH\b[\s\S]*?\b(SELECT|INSERT|UPDATE|DELETE)\b/` of
`extractFirstKeyword` (query-parser.ts line 97), returning the captured
group: scan left to right for a whole-word `WITH`; on each such occurrence
the lazy middle part finds the first whole-word DML keyword after it; if
none follows, the scan resumes at the next position (as the regex engine
advances its start position). -/
def cteScan (prev : Option Char) : Str → Option Str
  | [] => none
  | c :: rest =>
    if wordAt ("WITH".data) prev (c :: rest) then
      match findDML (some 'H') ((c :: rest).drop 4) with
      | some kw => some kw
      | none => cteScan (some c) rest
    else cteScan (some c) rest

/-- `extractFirstKeyword` (query-parser.ts lines 92-106). -/
def extractFirstKeyword (statement : Str) : Str :=
  let upper := toUpperStr statement
  if ("WITH".data).isPrefixOf upper then
    match cteScan none upper with
    | some kw => kw
    | none => firstWord upper
  else firstWord upper

/-- The `QueryType` enum (types.ts lines 18-54). -/
inductive QueryType where
  | SELECT | SHOW | DESCRIBE | EXPLAIN | USE
  | INSERT | UPDATE | DELETE | REPLACE
  | CREATE | ALTER | DROP | TRUNCATE
  | START_TRANSACTION | COMMIT | ROLLBACK | SAVEPOINT
  | GRANT | REVOKE | FLUSH | KILL | LOAD_DATA | SET
  | UNKNOWN
deriving DecidableEq, Fintype, Repr

/-- The string value of each `QueryType` enum member (types.ts), used by the
template literals of `explainBlocked`. -/
def QueryType.enumStr : QueryType → Str
  | .SELECT => "SELECT".data
  | .SHOW => "SHOW".data
  | .DESCRIBE => "DESCRIBE".data
  | .EXPLAIN => "EXPLAIN".data
  | .USE => "USE".data
  | .INSERT => "INSERT".data
  | .UPDATE => "UPDATE".data
  | .DELETE => "DELETE".data
  | .REPLACE => "REPLACE".data
  | .CREATE => "CREATE".data
  | .ALTER => "ALTER".data
  | .DROP => "DROP".data
  | .TRUNCATE => "TRUNCATE".data
  | .START_TRANSACTION => "START_TRANSACTION".data
  | .COMMIT => "COMMIT".data
  | .ROLLBACK => "ROLLBACK".data
  | .SAVEPOINT => "SAVEPOINT".data
  | .GRANT => "GRANT".data
  | .REVOKE => "REVOKE".data
  | .FLUSH => "FLUSH".data
  | .KILL => "KILL".data
  | .LOAD_DATA => "LOAD_DATA".data
  | .SET => "SET".data
  | .UNKNOWN => "UNKNOWN".data

/-- The `OperationMode` enum (types.ts lines 10-13). -/
inductive OperationMode where
  | READ_ONLY
  | WRITE_ENABLED
deriving DecidableEq, Fintype, Repr

/-- The `switch (keyword)` table of `detectQueryType`
(query-parser.ts lines 114-165). -/
def keywordToType (keyword : Str) : QueryType :=
  if keyword = ("SELECT".data) then .SELECT
  else if keyword = ("INSERT".data) then .INSERT
  else if keyword = ("UPDATE".data) then .UPDATE
  else if keyword = ("DELETE".data) then .DELETE
  else if keyword = ("REPLACE".data) then .REPLACE
  else if keyword = ("CREATE".data) then .CREATE
  else if keyword = ("ALTER".data) then .ALTER
  else if keyword = ("DROP".data) then .DROP
  else if keyword = ("TRUNCATE".data) then .TRUNCATE
  else if keyword = ("START".data) then .START_TRANSACTION
  else if keyword = ("BEGIN".data) then .START_TRANSACTION
  else if keyword = ("COMMIT".data) then .COMMIT
  else if keyword = ("ROLLBACK".data) then .ROLLBACK
  else if keyword = ("SAVEPOINT".data) then .SAVEPOINT
  else if keyword = ("GRANT".data) then .GRANT
  else if keyword = ("REVOKE".data) then .REVOKE
  else if keyword = ("FLUSH".data) then .FLUSH
  else if keyword = ("KILL".data) then .KILL
  else if keyword = ("LOAD".data) then .LOAD_DATA
  else if keyword = ("SHOW".data) then .SHOW
  else if keyword = ("DESCRIBE".data) then .DESCRIBE
  else if keyword = ("DESC".data) then .DESCRIBE
  else if keyword = ("EXPLAIN".data) then .EXPLAIN
  else if keyword = ("USE".data) then .USE
  else if keyword = ("SET".data) then .SET
  else .UNKNOWN

/-- The leading tokens recognized by the `switch` of `detectQueryType`. -/
def RECOGNIZED_KEYWORDS : List Str :=
  [("SELECT".data), ("INSERT".data), ("UPDATE".data), ("DELETE".data),
   ("REPLACE".data), ("CREATE".data), ("ALTER".data), ("DROP".data),
   ("TRUNCATE".data), ("START".data), ("BEGIN".data), ("COMMIT".data),
   ("ROLLBACK".data), ("SAVEPOINT".data), ("GRANT".data), ("REVOKE".data),
   ("FLUSH".data), ("KILL".data), ("LOAD".data), ("SHOW".data),
   ("DESCRIBE".data), ("DESC".data), ("EXPLAIN".data), ("USE".data),
   ("SET".data)]

/-- `detectQueryType` (query-parser.ts lines 111-166). -/
def detectQueryType (statement : Str) : QueryType :=
  keywordToType (extractFirstKeyword statement)

/-- `ALWAYS_ALLOWED` (query-parser.ts line 12). -/
def ALWAYS_ALLOWED : List QueryType :=
  [.SELECT, .SHOW, .DESCRIBE, .EXPLAIN]

/-- `NEVER_ALLOWED` (query-parser.ts lines 17-25). -/
def NEVER_ALLOWED : List QueryType :=
  [.DROP, .TRUNCATE, .GRANT, .REVOKE, .FLUSH, .KILL, .LOAD_DATA]

/-- `WRITE_MODE_ALLOWED` (query-parser.ts lines 30-39). -/
def WRITE_MODE_ALLOWED : List QueryType :=
  [.INSERT, .UPDATE, .DELETE, .REPLACE, .START_TRANSACTION, .COMMIT,
   .ROLLBACK, .SAVEPOINT]

/-- `isAllowed` (query-parser.ts lines 171-189).  Note the source consults
`ALWAYS_ALLOWED` before `NEVER_ALLOWED`. -/
def isAllowed (queryType : QueryType) (mode : OperationMode) : Bool :=
  if queryType ∈ ALWAYS_ALLOWED then true
  else if queryType ∈ NEVER_ALLOWED then false
  else if mode = .WRITE_ENABLED ∧ queryType ∈ WRITE_MODE_ALLOWED then true
  else false

/-- Modelled from the spec: the four-step decision order of §4.4
(NeverAllowed first, then AlwaysAllowed, then the write gate, then
default-deny), written for comparison with the source's `isAllowed`. -/
def specIsAllowed (queryType : QueryType) (mode : OperationMode) : Bool :=
  if queryType ∈ NEVER_ALLOWED then false
  else if queryType ∈ ALWAYS_ALLOWED then true
  else if mode = .WRITE_ENABLED ∧ queryType ∈ WRITE_MODE_ALLOWED then true
  else false

/-- `explainBlocked` (query-parser.ts lines 194-252). -/
def explainBlocked (queryType : QueryType) (mode : OperationMode) : Str :=
  let qs := queryType.enumStr
  match mode with
  | .READ_ONLY =>
    match queryType with
    | .INSERT | .UPDATE | .DELETE | .REPLACE =>
      qs ++ (" operations are not allowed in READ-ONLY mode. Set MYSQL_ALLOW_WRITE=true to enable write operations.".data)
    | .START_TRANSACTION | .COMMIT | .ROLLBACK | .SAVEPOINT =>
      ("Transaction control (".data) ++ qs ++ (") is not allowed in READ-ONLY mode. Set MYSQL_ALLOW_WRITE=true to enable transactions.".data)
    | .DROP | .TRUNCATE =>
      qs ++ (" operations are dangerous and never allowed for safety. Use MySQL CLI directly for destructive DDL operations.".data)
    | .CREATE | .ALTER =>
      ("DDL operations (".data) ++ qs ++ (") are not allowed in READ-ONLY mode.".data)
    | .GRANT | .REVOKE | .FLUSH | .KILL | .LOAD_DATA =>
      ("Administrative commands (".data) ++ qs ++ (") are never allowed for security reasons.".data)
    | .SET =>
      ("SET operations are not allowed in READ-ONLY mode.".data)
    | _ =>
      qs ++ (" operations are not allowed in READ-ONLY mode.".data)
  | .WRITE_ENABLED =>
    match queryType with
    | .DROP | .TRUNCATE =>
      qs ++ (" operations are dangerous and blocked even in WRITE mode for safety. Use MySQL CLI directly for destructive DDL operations.".data)
    | .GRANT | .REVOKE | .FLUSH | .KILL | .LOAD_DATA =>
      ("Administrative commands (".data) ++ qs ++ (") are never allowed for security reasons.".data)
    | .CREATE | .ALTER =>
      ("DDL operations (".data) ++ qs ++ (") are not allowed even in WRITE mode. Use MySQL CLI for schema changes.".data)
    | _ =>
      qs ++ (" operations are not recognized or not allowed.".data)

/-- `suggestFix` (query-parser.ts lines 257-281). -/
def suggestFix (queryType : QueryType) (mode : OperationMode) : Str :=
  match mode with
  | .READ_ONLY =>
    if queryType ∈ WRITE_MODE_ALLOWED then
      ("To enable write operations, set the environment variable: MYSQL_ALLOW_WRITE=true".data)
    else if queryType = .DROP ∨ queryType = .TRUNCATE then
      ("For safety, destructive DDL operations must be performed directly using MySQL CLI, not through this MCP server.".data)
    else if queryType ∈ NEVER_ALLOWED then
      ("Administrative commands are never allowed through this MCP server for security reasons.".data)
    else []
  | .WRITE_ENABLED =>
    if queryType = .DROP ∨ queryType = .TRUNCATE then
      ("Even in WRITE mode, destructive DDL operations are blocked. Use MySQL CLI directly for these operations.".data)
    else if queryType ∈ NEVER_ALLOWED then
      ("Administrative commands are never allowed through this MCP server, regardless of mode.".data)
    else []

/-- The `ParseResult` interface (types.ts lines 87-92). -/
structure ParseResult where
  queryType : QueryType
  allowed : Bool
  reason : Option Str
  suggestion : Option Str
deriving DecidableEq, Repr

/-- The per-statement verdict built when `isAllowed` rejects
(query-parser.ts lines 311-318). -/
def blockedResult (statement : Str) (mode : OperationMode) : ParseResult :=
  let queryType := detectQueryType statement
  { queryType := queryType
    allowed := false
    reason := some (explainBlocked queryType mode)
    suggestion := some (suggestFix queryType mode) }

/-- The `for` loop of `parseQuery` (query-parser.ts lines 304-319): the
verdict of the first statement whose type is not allowed (the `logQuery`
side effect is ignored by the embedding). -/
def firstBlocked (mode : OperationMode) : List Str → Option ParseResult
  | [] => none
  | statement :: rest =>
    if isAllowed (detectQueryType statement) mode then firstBlocked mode rest
    else some (blockedResult statement mode)

/-- `parseQuery` (query-parser.ts lines 286-327). -/
def parseQuery (query : Str) (mode : OperationMode) : ParseResult :=
  let normalized := normalizeQuery query
  let statements := splitStatements normalized
  match statements with
  | [] =>
    { queryType := .UNKNOWN
      allowed := false
      reason := some ("Empty or invalid query".data)
      suggestion := some ("Please provide a valid SQL query.".data) }
  | first :: _ =>
    match firstBlocked mode statements with
    | some result => result
    | none => { queryType := detectQueryType first, allowed := true,
                reason := none, suggestion := none }

/-- `CHARACTER_LIMIT` (constants.ts line 9). -/
def CHARACTER_LIMIT : Nat := 25000

/-- Decimal digit character. -/
def digitChar (n : Nat) : Char :=
  Char.ofNat (48 + n)

/-- Decimal rendering, fuelled so that the recursion is structural (the fuel
argument only bounds the recursion depth; `n + 1` is always enough). -/
def decimalReprAux : Nat → Nat → Str
  | 0, _ => []
  | fuel + 1, n =>
    if n < 10 then [digitChar n]
    else decimalReprAux fuel (n / 10) ++ [digitChar (n % 10)]

/-- Decimal rendering of a natural number, as produced by a JavaScript
template literal for a non-negative integer. -/
def decimalRepr (n : Nat) : Str :=
  decimalReprAux (n + 1) n

/-- Rendering of a JavaScript number that may be negative (integral case). -/
def intRepr (n : Int) : Str :=
  if n < 0 then '-' :: decimalRepr n.natAbs else decimalRepr n.toNat

/-- The `warning` template literal of `applyCharacterLimit`
(formatters.ts lines 145-152). -/
def warningText (origLen : Nat) : Str :=
  ("\n\n---\n**⚠️ Response Truncated**\n\nThe response was truncated at ".data) ++
  decimalRepr CHARACTER_LIMIT ++
  (" characters. Original length was ".data) ++
  decimalRepr origLen ++
  (" characters.\n\n**Suggestions to reduce response size:**\n- Add a LIMIT clause to restrict the number of rows (e.g., LIMIT 100)\n- Use WHERE clauses to filter data more specifically\n- Select only necessary columns instead of using SELECT *\n- Consider breaking your query into smaller, more focused queries\n".data)

/-- `applyCharacterLimit` (formatters.ts lines 134-161).  `maxContentLength`
is computed in `Int` because the JavaScript subtraction can go negative. -/
def applyCharacterLimit (response : Str) (includeWarning : Bool) : Str :=
  if response.length ≤ CHARACTER_LIMIT then response
  else
    let truncated := response.take CHARACTER_LIMIT
    if !includeWarning then truncated
    else
      let warning := warningText response.length
      let maxContentLength : Int := (CHARACTER_LIMIT : Int) - warning.length
      if 0 < maxContentLength ∧ maxContentLength < (truncated.length : Int) then
        response.take (CHARACTER_LIMIT - warning.length) ++ warning
      else truncated ++ warning

/-- The universe of row-cell values the database collaborator delivers
(the `unknown` cells of `QueryResult.rows`): SQL NULL, a missing property,
strings, integral numbers, booleans and dates (a date is carried as its
ISO-8601 rendering, which is both what `formatCell` prints and what
`JSON.stringify` emits for it). -/
inductive Cell where
  | null
  | undef
  | str (s : Str)
  | num (n : Int)
  | bool (b : Bool)
  | date (iso : Str)
deriving DecidableEq, Repr

/-- The `QueryResult` interface (types.ts lines 97-115). -/
structure QueryResult where
  columns : Option (List (Str × Str))
  rows : Option (List (List Cell))
  affectedRows : Option Nat
  insertId : Option Nat
  changedRows : Option Nat
  rowCount : Nat
  executionTime : Nat
  warnings : Option (List Str)
  truncated : Option Bool
deriving DecidableEq, Repr

/-- A `FieldPacket` as far as the executor reads it: `name` and the numeric
`type` (possibly absent, hence `field.type || 0` in the source). -/
structure Field where
  name : Str
  type : Option Nat
deriving DecidableEq, Repr

/-- A `RowDataPacket`: property name to value. -/
abbrev NativeRow := List (Str × Cell)

/-- The first component of a `mysql2` query result, after the runtime shape
test of `QueryExecutor.formatResult`: an array of row packets (`tabular`),
or an `OkPacket` — an object with `affectedRows` (`ok`).  An array always
satisfies `Array.isArray(rows) && rows.length >= 0 && !('affectedRows' in
rows)`, so the two cases are exclusive and exhaustive. -/
inductive NativeRows where
  | tabular (data : List NativeRow)
  | ok (affectedRows : Nat) (insertId : Nat) (changedRows : Nat)
deriving DecidableEq, Repr

/-- `QueryExecutor.getFieldTypeName` (query-executor.ts lines 129-162). -/
def getFieldTypeName (type : Nat) : Str :=
  if type = 0 then ("DECIMAL".data)
  else if type = 1 then ("TINY".data)
  else if type = 2 then ("SHORT".data)
  else if type = 3 then ("LONG".data)
  else if type = 4 then ("FLOAT".data)
  else if type = 5 then ("DOUBLE".data)
  else if type = 6 then ("NULL".data)
  else if type = 7 then ("TIMESTAMP".data)
  else if type = 8 then ("LONGLONG".data)
  else if type = 9 then ("INT24".data)
  else if type = 10 then ("DATE".data)
  else if type = 11 then ("TIME".data)
  else if type = 12 then ("DATETIME".data)
  else if type = 13 then ("YEAR".data)
  else if type = 15 then ("VARCHAR".data)
  else if type = 16 then ("BIT".data)
  else if type = 245 then ("JSON".data)
  else if type = 246 then ("NEWDECIMAL".data)
  else if type = 247 then ("ENUM".data)
  else if type = 248 then ("SET".data)
  else if type = 249 then ("TINY_BLOB".data)
  else if type = 250 then ("MEDIUM_BLOB".data)
  else if type = 251 then ("LONG_BLOB".data)
  else if type = 252 then ("BLOB".data)
  else if type = 253 then ("VAR_STRING".data)
  else if type = 254 then ("STRING".data)
  else if type = 255 then ("GEOMETRY".data)
  else ("UNKNOWN(".data) ++ decimalRepr type ++ (")".data)

/-- `QueryExecutor.formatResult` (query-executor.ts lines 54-124).
Every branch of the source sets `truncated: false`.  (`insertId || 0` and
`changedRows || 0` are the identity on natural numbers.) -/
def formatResult (rows : NativeRows) (fields : List Field)
    (executionTime : Nat) : QueryResult :=
  match rows with
  | .tabular data =>
    let columns := fields.map (fun f => (f.name, getFieldTypeName (f.type.getD 0)))
    let rowArray := data.map (fun row =>
      fields.map (fun f => (List.lookup f.name row).getD Cell.undef))
    { columns := some columns
      rows := some rowArray
      affectedRows := none
      insertId := none
      changedRows := none
      rowCount := data.length
      executionTime := executionTime
      warnings := none
      truncated := some false }
  | .ok affectedRows insertId changedRows =>
    { columns := none
      rows := none
      affectedRows := some affectedRows
      insertId := some insertId
      changedRows := some changedRows
      rowCount := affectedRows
      executionTime := executionTime
      warnings := none
      truncated := some false }

/-- `formatCell` (formatters.ts lines 88-108). -/
def formatCell : Cell → Str
  | .null => ("*NULL*".data)
  | .undef => ("*undefined*".data)
  | .str s => s
  | .num n => intRepr n
  | .bool true => ("true".data)
  | .bool false => ("false".data)
  | .date iso => iso

/-- `formatMarkdownTable` (formatters.ts lines 63-83). -/
def formatMarkdownTable (columns : List (Str × Str))
    (rows : List (List Cell)) : Str :=
  if columns.isEmpty || rows.isEmpty then ("*(Empty result set)*".data)
  else
    ("| ".data) ++ (List.intercalate (" | ".data) (columns.map Prod.fst)) ++ (" |\n".data) ++
    ("| ".data) ++ (List.intercalate (" | ".data) (columns.map (fun _ => ("---".data)))) ++ (" |\n".data) ++
    (rows.map (fun row =>
      ("| ".data) ++ (List.intercalate (" | ".data) (row.map formatCell)) ++ (" |\n".data))).flatten

/-- `formatDMLResult` (formatters.ts lines 113-129). -/
def formatDMLResult (result : QueryResult) : Str :=
  ("**Operation completed successfully**\n\n".data) ++
  (match result.affectedRows with
   | some n => ("- Rows affected: ".data) ++ decimalRepr n ++ ("\n".data)
   | none => []) ++
  (match result.insertId with
   | some n => if 0 < n then ("- Insert ID: ".data) ++ decimalRepr n ++ ("\n".data) else []
   | none => []) ++
  (match result.changedRows with
   | some n => ("- Rows changed: ".data) ++ decimalRepr n ++ ("\n".data)
   | none => []) ++
  ("- Execution time: ".data) ++ decimalRepr result.executionTime ++ ("ms\n".data)

/-- `formatAsMarkdown` (formatters.ts lines 31-58). -/
def formatAsMarkdown (result : QueryResult) (_queryType : QueryType) : Str :=
  match result.columns, result.rows with
  | some columns, some rows =>
    if rows.length > 0 then
      formatMarkdownTable columns rows ++ ("\n\n".data) ++
      ("**Query completed:** ".data) ++ decimalRepr result.rowCount ++
      (" row(s) returned in ".data) ++ decimalRepr result.executionTime ++ ("ms\n".data)
    else
      ("**No rows returned**\n\nQuery completed in ".data) ++
      decimalRepr result.executionTime ++ ("ms\n".data)
  | _, _ =>
    match result.affectedRows with
    | some _ => formatDMLResult result
    | none =>
      ("**Query completed** in ".data) ++ decimalRepr result.executionTime ++ ("ms\n".data) ++
      (if result.rowCount > 0 then
        decimalRepr result.rowCount ++ (" row(s) affected\n".data)
      else [])

/-- JSON values produced by `formatAsJSON`. -/
inductive Json where
  | null
  | bool (b : Bool)
  | num (n : Int)
  | str (s : Str)
  | arr (items : List Json)
  | obj (fields : List (Str × Json))
deriving Repr

/-- Hexadecimal digit character (lower case, as `JSON.stringify` emits). -/
def hexDigit (n : Nat) : Char :=
  if n < 10 then Char.ofNat (48 + n) else Char.ofNat (87 + n)

/-- `JSON.stringify` escaping of one string character. -/
def escapeJsonChar (c : Char) : Str :=
  if c = '"' then ['\\', '"']
  else if c = '\\' then ['\\', '\\']
  else if c.toNat = 8 then ['\\', 'b']
  else if c.toNat = 9 then ['\\', 't']
  else if c.toNat = 10 then ['\\', 'n']
  else if c.toNat = 12 then ['\\', 'f']
  else if c.toNat = 13 then ['\\', 'r']
  else if c.toNat < 32 then
    ['\\', 'u', '0', '0', hexDigit (c.toNat / 16), hexDigit (c.toNat % 16)]
  else [c]

/-- A JSON string literal. -/
def quoteJson (s : Str) : Str :=
  '"' :: (s.map escapeJsonChar).flatten ++ ['"']

/-- Indentation produced by `JSON.stringify(x, null, 2)` at nesting level
`lvl`. -/
def jsonIndent (lvl : Nat) : Str :=
  List.replicate (2 * lvl) ' '

/-- `JSON.stringify(x, null, 2)`: two-space indented rendering. -/
def renderJson (lvl : Nat) : Json → Str
  | .null => ("null".data)
  | .bool true => ("true".data)
  | .bool false => ("false".data)
  | .num n => intRepr n
  | .str s => quoteJson s
  | .arr [] => ("[]".data)
  | .arr (x :: xs) =>
    ("[\n".data) ++
    List.intercalate (",\n".data)
      (((x :: xs).attach).map (fun y => jsonIndent (lvl + 1) ++ renderJson (lvl + 1) y.1)) ++
    ("\n".data) ++ jsonIndent lvl ++ ("]".data)
  | .obj [] => ("\x7b\x7d".data)
  | .obj (f :: fs) =>
    ("\x7b\n".data) ++
    List.intercalate (",\n".data)
      (((f :: fs).attach).map (fun g =>
        jsonIndent (lvl + 1) ++ quoteJson g.1.1 ++ (": ".data) ++ renderJson (lvl + 1) g.1.2)) ++
    ("\n".data) ++ jsonIndent lvl ++ ("\x7d".data)
termination_by j => sizeOf j
decreasing_by
  · have := List.sizeOf_lt_of_mem y.2
    simp only [Json.arr.sizeOf_spec]
    omega
  · have h1 := List.sizeOf_lt_of_mem g.2
    have h2 : sizeOf g.1.2 < sizeOf g.1 := by
      obtain ⟨a, b⟩ := g.1
      simp
    simp only [Json.obj.sizeOf_spec]
    omega

/-- A cell value as serialized inside a JSON array (`undefined` becomes
`null` there; a date serializes to its ISO string via `toJSON`). -/
def cellToJson : Cell → Json
  | .null => .null
  | .undef => .null
  | .str s => .str s
  | .num n => .num n
  | .bool b => .bool b
  | .date iso => .str iso

/-- The object literal built by `formatAsJSON` (formatters.ts lines 12-23),
spreads included. -/
def jsonOutput (result : QueryResult) : Json :=
  .obj
    [(("columns".data),
      .arr ((result.columns.getD []).map (fun c =>
        .obj [(("name".data), .str c.1), (("type".data), .str c.2)]))),
     (("rows".data),
      .arr ((result.rows.getD []).map (fun row => .arr (row.map cellToJson)))),
     (("metadata".data),
      .obj ([(("rowCount".data), Json.num result.rowCount),
             (("executionTime".data), Json.num result.executionTime),
             (("truncated".data), Json.bool (result.truncated.getD false))] ++
            (match result.affectedRows with
             | some n => [(("affectedRows".data), Json.num n)]
             | none => []) ++
            (match result.insertId with
             | some n => [(("insertId".data), Json.num n)]
             | none => []) ++
            (match result.changedRows with
             | some n => [(("changedRows".data), Json.num n)]
             | none => [])))]

/-- `formatAsJSON` (formatters.ts lines 11-26). -/
def formatAsJSON (result : QueryResult) : Str :=
  renderJson 0 (jsonOutput result)

/-- `QueryExecutor.executeQuery` (query-executor.ts lines 23-49).  The
database collaborator is a parameter `db`; the embedding also returns the
list of SQL texts handed to `this.mysqlClient.executeQuery` (the source
makes exactly one such call, with the raw `query`).  The wall-clock elapsed
time is the parameter `executionTime`. -/
def QueryExecutor.executeQuery (db : Str → NativeRows × List Field)
    (executionTime : Nat) (operationMode : OperationMode) (query : Str) :
    Except Str (QueryResult × List Str) :=
  let parseResult := parseQuery query operationMode
  if parseResult.allowed then
    let native := db query
    Except.ok (formatResult native.1 native.2 executionTime, [query])
  else
    Except.error (("Query blocked: ".data) ++ (parseResult.reason.getD []) ++
      ("\n\n".data) ++ (parseResult.suggestion.getD []))

/-- A thrown value as `handleQueryError` inspects it: whether it is an
`Error` instance (with `name` and `message`), whether it is a `ZodError`
(with its issues as (path, message) pairs), the optional MySQL properties
`code`, `sqlMessage` and `sql`, and the `String(error)` rendering used for
non-`Error` values. -/
structure ThrownError where
  isErrorInstance : Bool
  name : Str
  message : Str
  isZodError : Bool
  zodIssues : List (Str × Str)
  code : Option Str
  sqlMessage : Option Str
  sql : Option Str
  toStringVal : Str
deriving DecidableEq, Repr

/-- `isMySQLError` (error-handlers.ts lines 21-25): an object with a string
`code` property. -/
def isMySQLError (e : ThrownError) : Bool :=
  e.code.isSome

/-- `String.prototype.includes`: whether `needle` occurs in the text. -/
def includesStr (needle : Str) : Str → Bool
  | [] => needle.isEmpty
  | c :: rest => needle.isPrefixOf (c :: rest) || includesStr needle rest

/-- `isTimeoutError` (error-handlers.ts lines 30-35). -/
def isTimeoutError (e : ThrownError) : Bool :=
  e.isErrorInstance &&
  (includesStr ("timeout".data) e.message || includesStr ("ETIMEDOUT".data) e.message)

/-- `handleUnknownError` (error-handlers.ts lines 227-233). -/
def handleUnknownError (e : ThrownError) : Str :=
  if e.isErrorInstance then
    ("**Error: ".data) ++ e.name ++ ("**\n\n".data) ++ e.message ++ ("\n".data)
  else
    ("**Unexpected error**\n\n".data) ++ e.toStringVal ++ ("\n".data)

/-- `handleMySQLError` (error-handlers.ts lines 40-190). -/
def handleMySQLError (e : ThrownError) : Str :=
  if !isMySQLError e then handleUnknownError e
  else
    let code := e.code.getD []
    if code = ("ER_NO_SUCH_TABLE".data) then
      ("**Error: Table does not exist**\n\n".data) ++
      (e.sqlMessage.getD ("The specified table was not found.".data)) ++
      ("\n\n**Suggestions:**\n- Verify the table name is spelled correctly\n- Ensure you".data) ++ [sq] ++
      ("re using fully qualified names (database.table format)\n- Use SHOW TABLES FROM database_name to see available tables\n- Check that you have permissions to access this table\n".data)
    else if code = ("ER_BAD_DB_ERROR".data) then
      ("**Error: Database does not exist**\n\n".data) ++
      (e.sqlMessage.getD ("The specified database was not found.".data)) ++
      ("\n\n**Suggestions:**\n- Verify the database name is spelled correctly\n- Use SHOW DATABASES to see available databases\n- Check that you have permissions to access this database\n".data)
    else if code = ("ER_ACCESS_DENIED_ERROR".data) ∨ code = ("ER_TABLEACCESS_DENIED_ERROR".data) ∨ code = ("ER_DBACCESS_DENIED_ERROR".data) then
      ("**Error: Access denied**\n\n".data) ++
      (e.sqlMessage.getD ("You do not have permission for this operation.".data)) ++
      ("\n\nYour MySQL user account does not have the required permissions for this operation.\n\n**Suggestions:**\n- Contact your database administrator to grant appropriate permissions\n- Verify you".data) ++ [sq] ++
      ("re connecting with the correct MySQL user account\n- Check that your user has been granted access to the specific database/table\n".data)
    else if code = ("ER_PARSE_ERROR".data) ∨ code = ("ER_SYNTAX_ERROR".data) then
      ("**Error: SQL syntax error**\n\n".data) ++
      (e.sqlMessage.getD ("There is an error in your SQL syntax.".data)) ++
      ("\n\n**Suggestions:**\n- Check your query syntax carefully\n- Ensure table names are fully qualified (database.table format)\n- Verify column names and keywords are spelled correctly\n- Make sure quotes and parentheses are balanced\n".data)
    else if code = ("ER_DUP_ENTRY".data) then
      ("**Error: Duplicate entry**\n\n".data) ++
      (e.sqlMessage.getD ("A duplicate value was found.".data)) ++
      ("\n\nThis typically occurs when trying to insert a row that violates a unique constraint or primary key.\n\n**Suggestions:**\n- Check for existing records before inserting\n- Use INSERT IGNORE or REPLACE to handle duplicates\n- Modify your data to ensure unique values\n".data)
    else if code = ("ER_NO_REFERENCED_ROW".data) ∨ code = ("ER_NO_REFERENCED_ROW_2".data) then
      ("**Error: Foreign key constraint violation**\n\n".data) ++
      (e.sqlMessage.getD ("Referenced row does not exist.".data)) ++
      ("\n\nThe operation violates a foreign key constraint - the referenced row must exist first.\n\n**Suggestions:**\n- Ensure the referenced record exists in the parent table\n- Check that foreign key values match existing primary key values\n".data)
    else if code = ("ER_ROW_IS_REFERENCED".data) ∨ code = ("ER_ROW_IS_REFERENCED_2".data) then
      ("**Error: Cannot delete or update**\n\n".data) ++
      (e.sqlMessage.getD ("Row is referenced by other records.".data)) ++
      ("\n\nThe row cannot be deleted or updated because other records reference it.\n\n**Suggestions:**\n- Delete child records first\n- Consider using CASCADE delete if appropriate\n- Update foreign keys in dependent tables\n".data)
    else if code = ("ER_LOCK_WAIT_TIMEOUT".data) then
      ("**Error: Lock wait timeout exceeded**\n\nThe query waited too long to acquire a table lock.\n\n**Suggestions:**\n- Try the query again - another transaction may be holding the lock\n- Check for long-running queries that might be blocking this operation\n- Consider using smaller transactions\n- Contact your database administrator if the issue persists\n".data)
    else if code = ("ER_LOCK_DEADLOCK".data) then
      ("**Error: Deadlock detected**\n\n".data) ++
      (e.sqlMessage.getD ("A deadlock was detected and the transaction was rolled back.".data)) ++
      ("\n\n**Suggestions:**\n- Retry the operation - deadlocks are typically transient\n- Consider reordering operations to avoid deadlocks\n- Keep transactions small and quick\n".data)
    else if code = ("ER_TOO_MANY_CONNECTIONS".data) then
      ("**Error: Too many connections**\n\nThe MySQL server has reached its connection limit.\n\n**Suggestions:**\n- Wait a moment and try again\n- Contact your database administrator to increase max_connections\n- Check for connection leaks in applications\n".data)
    else if code = ("ECONNREFUSED".data) then
      ("**Error: Connection refused**\n\nUnable to connect to the MySQL server.\n\n**Suggestions:**\n- Verify the MySQL server is running\n- Check that MYSQL_HOST and MYSQL_PORT are correct\n- Ensure there are no firewall rules blocking the connection\n- Verify network connectivity to the database server\n".data)
    else if code = ("PROTOCOL_CONNECTION_LOST".data) ∨ code = ("ECONNRESET".data) then
      ("**Error: Connection lost**\n\nThe connection to the MySQL server was lost.\n\n**Suggestions:**\n- Check your network connection\n- Verify the MySQL server is running\n- Try the query again\n- Check MySQL server logs for issues\n".data)
    else
      ("**MySQL Error (".data) ++ code ++ (")**\n\n".data) ++
      (e.sqlMessage.getD ("An error occurred while executing the query.".data)) ++
      ("\n\n".data) ++
      (match e.sql with
       | some q => ("**Query:**\n```sql\n".data) ++ q ++ ("\n```\n\n".data)
       | none => []) ++
      ("If this error persists, consult the MySQL documentation or contact your database administrator.\n".data)

/-- `handleTimeoutError` (error-handlers.ts lines 195-208). -/
def handleTimeoutError (queryTimeout : Nat) : Str :=
  ("**Error: Query execution timeout**\n\nThe query exceeded the timeout limit of ".data) ++
  decimalRepr queryTimeout ++
  ("ms.\n\n**Suggestions to resolve:**\n- Add a LIMIT clause to reduce the result set size (e.g., LIMIT 100)\n- Add WHERE clauses to filter data more specifically\n- Select only necessary columns instead of using SELECT *\n- Add indexes on columns used in WHERE and JOIN clauses\n- Use EXPLAIN to analyze query performance\n- Consider breaking complex queries into smaller operations\n- Increase MYSQL_QUERY_TIMEOUT environment variable if necessary\n".data)

/-- `handleValidationError` (error-handlers.ts lines 213-222). -/
def handleValidationError (e : ThrownError) : Str :=
  ("**Input validation error**\n\nThe following validation errors occurred:\n\n".data) ++
  (List.intercalate ("\n".data)
    (e.zodIssues.map (fun i => ("- **".data) ++ i.1 ++ ("**: ".data) ++ i.2))) ++
  ("\n".data)

/-- `handleQueryError` (error-handlers.ts lines 238-256): timeout check
first, then `ZodError`, then MySQL errors, then the generic handler. -/
def handleQueryError (e : ThrownError) (queryTimeout : Nat) : Str :=
  if isTimeoutError e then handleTimeoutError queryTimeout
  else if e.isZodError then handleValidationError e
  else if isMySQLError e then handleMySQLError e
  else handleUnknownError e

/-- Observer on the `formatAsJSON` object: the `truncated` entry of the
`metadata` block. -/
def metadataTruncated (j : Json) : Option Json :=
  match j with
  | .obj fields =>
    match List.lookup ("metadata".data) fields with
    | some (.obj mfields) => List.lookup ("truncated".data) mfields
    | _ => none
  | _ => none

/-- The error `mysql2` raises for a lock-wait timeout: an `Error` instance
with MySQL code `ER_LOCK_WAIT_TIMEOUT` whose message is the server's
`Lock wait timeout exceeded; try restarting transaction`. -/
def lockWaitError : ThrownError :=
  { isErrorInstance := true
    name := ("Error".data)
    message := ("Lock wait timeout exceeded; try restarting transaction".data)
    isZodError := false
    zodIssues := []
    code := some ("ER_LOCK_WAIT_TIMEOUT".data)
    sqlMessage := some ("Lock wait timeout exceeded; try restarting transaction".data)
    sql := none
    toStringVal := [] }

/-- An `ER_LOCK_WAIT_TIMEOUT` failure thrown as a plain object rather than
an `Error` instance (so message sniffing does not classify it as a
timeout). -/
def plainLockErr : ThrownError :=
  { isErrorInstance := false
    name := []
    message := []
    isZodError := false
    zodIssues := []
    code := some ("ER_LOCK_WAIT_TIMEOUT".data)
    sqlMessage := none
    sql := none
    toStringVal := [] }

/-! ### Supporting lemmas -/

lemma dropWhile_dropWhile (p : Char → Bool) (s : Str) :
    (s.dropWhile p).dropWhile p = s.dropWhile p := by
  induction s with
  | nil => simp
  | cons c rest ih =>
    by_cases h : p c <;> simp [List.dropWhile_cons, h, ih]

lemma dropWhile_eq_cons_head (p : Char → Bool) :
    ∀ (s : Str) (c : Char) (t : Str), s.dropWhile p = c :: t → p c = false := by
  intro s
  induction s with
  | nil => intro c t h; simp at h
  | cons a rest ih =>
    intro c t h
    by_cases ha : p a
    · rw [List.dropWhile_cons, if_pos ha] at h
      exact ih c t h
    · rw [List.dropWhile_cons, if_neg ha] at h
      cases h
      simp [ha]

lemma dropWhile_eq_self_of_head (p : Char → Bool) (s : Str) (c : Char) (t : Str)
    (hs : s = c :: t) (hc : p c = false) : s.dropWhile p = s := by
  subst hs
  rw [List.dropWhile_cons, if_neg (by simp [hc])]

/-- The leading character of a trimmed, nonempty string is not whitespace. -/
lemma jsTrim_head (s : Str) (c : Char) (t : Str) (h : jsTrim s = c :: t) :
    isJsSpace c = false := by
  unfold jsTrim at h
  have hYne : (s.dropWhile isJsSpace).reverse.dropWhile isJsSpace ≠ [] := by
    intro hnil
    rw [hnil] at h
    simp at h
  have hhead : ((s.dropWhile isJsSpace).reverse.dropWhile isJsSpace).getLast? = some c := by
    rw [← List.head?_reverse, h]
    rfl
  have hdecomp := List.takeWhile_append_dropWhile isJsSpace (s.dropWhile isJsSpace).reverse
  have hlast : ((s.dropWhile isJsSpace).reverse).getLast? = some c := by
    conv_lhs => rw [← hdecomp]
    rw [List.getLast?_append_of_ne_nil _ hYne]
    exact hhead
  rw [List.getLast?_reverse] at hlast
  cases hX : s.dropWhile isJsSpace with
  | nil => rw [hX] at hlast; simp at hlast
  | cons x xs =>
    rw [hX] at hlast
    simp at hlast
    exact hlast ▸ dropWhile_eq_cons_head isJsSpace s x xs hX

/-- Trimming is idempotent. -/
lemma jsTrim_idem (s : Str) : jsTrim (jsTrim s) = jsTrim s := by
  match h : jsTrim s with
  | [] =>
    simp [jsTrim, h]
  | c :: t =>
    have hc := jsTrim_head s c t h
    unfold jsTrim
    rw [dropWhile_eq_self_of_head isJsSpace (c :: t) c t rfl hc]
    have hrev : (c :: t).reverse.dropWhile isJsSpace = (c :: t).reverse := by
      have h2 : (c :: t).reverse =
          ((s.dropWhile isJsSpace).reverse.dropWhile isJsSpace).reverse.reverse := by
        rw [← h]
        simp [jsTrim]
      rw [h2, List.reverse_reverse]
      exact dropWhile_dropWhile isJsSpace _
    rw [hrev, List.reverse_reverse]

lemma splitChar_ne_nil (sep : Char) (s : Str) : splitChar sep s ≠ [] := by
  cases s with
  | nil => simp [splitChar]
  | cons c rest =>
    by_cases h : c = sep
    · simp [splitChar, h]
    · simp only [splitChar, if_neg h]
      match splitChar sep rest with
      | [] => simp
      | u :: us => simp

/-- No piece produced by `splitChar` contains the separator. -/
lemma splitChar_no_sep (sep : Char) :
    ∀ (s : Str) (u : Str), u ∈ splitChar sep s → sep ∉ u := by
  intro s
  induction s with
  | nil =>
    intro u hu
    simp [splitChar] at hu
    simp [hu]
  | cons c rest ih =>
    intro u hu
    by_cases h : c = sep
    · rw [show splitChar sep (c :: rest) = [] :: splitChar sep rest from by
        simp [splitChar, h]] at hu
      rcases List.mem_cons.mp hu with h1 | h1
      · simp [h1]
      · exact ih u h1
    · simp only [splitChar, if_neg h] at hu
      match hrec : splitChar sep rest with
      | [] => exact absurd hrec (splitChar_ne_nil sep rest)
      | v :: vs =>
        rw [hrec] at hu
        rcases List.mem_cons.mp hu with h1 | h1
        · subst h1
          intro hmem
          rcases List.mem_cons.mp hmem with h2 | h2
          · exact h (h2.symm)
          · exact ih v (by rw [hrec]; exact List.mem_cons_self v vs) h2
        · exact ih u (by rw [hrec]; exact List.mem_cons.mpr (Or.inr h1))

/-- Every whitespace character surviving `collapseWs` is a single space. -/
lemma collapseWs_space :
    ∀ (s : Str), ∀ c ∈ collapseWs s, isJsSpace c = true → c = ' '
  | [] => by simp [collapseWs]
  | a :: rest => by
    intro c hc hspace
    by_cases ha : isJsSpace a
    · rw [show collapseWs (a :: rest) = ' ' :: collapseWs (rest.dropWhile isJsSpace) from by
        rw [collapseWs, if_pos ha]] at hc
      rcases List.mem_cons.mp hc with h1 | h1
      · exact h1
      · exact collapseWs_space (rest.dropWhile isJsSpace) c h1 hspace
    · rw [show collapseWs (a :: rest) = a :: collapseWs rest from by
        rw [collapseWs, if_neg ha]] at hc
      rcases List.mem_cons.mp hc with h1 | h1
      · subst h1
        exact absurd hspace (by simp [ha])
      · exact collapseWs_space rest c h1 hspace
termination_by s => s.length
decreasing_by
  · have := length_dropWhile_le isJsSpace rest
    simp only [List.length_cons]
    omega
  · simp [List.length_cons]

lemma collapseWs_head? (s : Str) (c : Char) (t : Str) (h : s = c :: t) :
    (collapseWs s).head? = some (if isJsSpace c then ' ' else c) := by
  subst h
  by_cases hc : isJsSpace c
  · rw [collapseWs, if_pos hc]
    simp [hc]
  · rw [collapseWs, if_neg hc]
    simp [hc]

lemma collapseWs_ne_nil (s : Str) (c : Char) (t : Str) (h : s = c :: t) :
    collapseWs s ≠ [] := by
  subst h
  by_cases hc : isJsSpace c
  · rw [collapseWs, if_pos hc]
    simp
  · rw [collapseWs, if_neg hc]
    simp

/-- `collapseWs` never produces two adjacent whitespace characters. -/
lemma collapseWs_chain :
    ∀ (s : Str),
      List.Chain' (fun a b => ¬(isJsSpace a = true ∧ isJsSpace b = true)) (collapseWs s)
  | [] => by simp [collapseWs]
  | a :: rest => by
    by_cases ha : isJsSpace a
    · rw [show collapseWs (a :: rest) = ' ' :: collapseWs (rest.dropWhile isJsSpace) from by
        rw [collapseWs, if_pos ha]]
      rw [List.chain'_cons']
      constructor
      · intro y hy
        match hd : rest.dropWhile isJsSpace with
        | [] =>
          rw [hd] at hy
          simp [collapseWs] at hy
        | d :: ds =>
          have hds : isJsSpace d = false := dropWhile_eq_cons_head isJsSpace rest d ds hd
          rw [hd, collapseWs_head? (d :: ds) d ds rfl] at hy
          simp [hds] at hy
          subst hy
          simp [hds]
      · exact collapseWs_chain (rest.dropWhile isJsSpace)
    · rw [show collapseWs (a :: rest) = a :: collapseWs rest from by
        rw [collapseWs, if_neg ha]]
      rw [List.chain'_cons']
      refine ⟨fun y _ => by simp [ha], ?_⟩
      exact collapseWs_chain rest
termination_by s => s.length
decreasing_by
  · have := length_dropWhile_le isJsSpace rest
    simp only [List.length_cons]
    omega
  · simp [List.length_cons]

/-- `collapseWs` preserves a non-whitespace head. -/
lemma collapseWs_head_not_space (s : Str) (c : Char)
    (hs : (collapseWs s).head? = some c)
    (hhead : ∀ a b, s = a :: b → isJsSpace a = false) :
    isJsSpace c = false := by
  cases s with
  | nil => simp [collapseWs] at hs
  | cons a b =>
    have ha := hhead a b rfl
    rw [collapseWs_head? (a :: b) a b rfl] at hs
    simp [ha] at hs
    rw [← hs]
    exact ha

lemma getLast?_cons_of_ne_nil (a : Char) (l : Str) (h : l ≠ []) :
    (a :: l).getLast? = l.getLast? := by
  cases l with
  | nil => exact absurd rfl h
  | cons b bs => rw [List.getLast?_cons_cons]

/-- `collapseWs` preserves the absence of a trailing whitespace character. -/
lemma collapseWs_getLast :
    ∀ (s : Str), (∀ c, s.getLast? = some c → isJsSpace c = false) →
      ∀ c, (collapseWs s).getLast? = some c → isJsSpace c = false
  | [] => by simp [collapseWs]
  | a :: rest => by
    intro hs c hc
    cases hrest : rest with
    | nil =>
      have ha := hs a (by simp [hrest])
      rw [collapseWs, if_neg (by simp [ha]), hrest] at hc
      simp [collapseWs] at hc
      rw [← hc]
      exact ha
    | cons r rs =>
      have hrestne : rest ≠ [] := by simp [hrest]
      have hlast : ∀ d, rest.getLast? = some d → isJsSpace d = false := by
        intro d hd
        apply hs d
        rw [getLast?_cons_of_ne_nil a rest hrestne]
        exact hd
      by_cases ha : isJsSpace a
      · rw [collapseWs, if_pos ha] at hc
        have hd : rest.dropWhile isJsSpace ≠ [] := by
          intro hnil
          have hall := List.dropWhile_eq_nil_iff.mp hnil
          cases hgl : rest.getLast? with
          | none => exact hrestne (List.getLast?_eq_none_iff.mp hgl)
          | some d =>
            have hdm : d ∈ rest := by
              obtain ⟨hne, heq⟩ := List.mem_getLast?_eq_getLast
                (show d ∈ rest.getLast? by simp [hgl])
              rw [heq]
              exact List.getLast_mem hne
            exact absurd (hall d hdm) (by simp [hlast d hgl])
        have hdlast : ∀ d, (rest.dropWhile isJsSpace).getLast? = some d →
            isJsSpace d = false := by
          intro d hdl
          apply hlast d
          have hdecomp := List.takeWhile_append_dropWhile isJsSpace rest
          conv_lhs => rw [← hdecomp]
          rw [List.getLast?_append_of_ne_nil _ hd]
          exact hdl
        have hcw : collapseWs (rest.dropWhile isJsSpace) ≠ [] := by
          cases hx : rest.dropWhile isJsSpace with
          | nil => exact absurd hx hd
          | cons x xs => exact collapseWs_ne_nil (x :: xs) x xs rfl
        rw [getLast?_cons_of_ne_nil ' ' _ hcw] at hc
        exact collapseWs_getLast (rest.dropWhile isJsSpace) hdlast c hc
      · rw [collapseWs, if_neg ha] at hc
        have hcw : collapseWs rest ≠ [] := by
          rw [hrest]
          exact collapseWs_ne_nil (r :: rs) r rs rfl
        rw [getLast?_cons_of_ne_nil a _ hcw] at hc
        exact collapseWs_getLast rest hlast c hc
termination_by s => s.length
decreasing_by
  · have h1 := length_dropWhile_le isJsSpace rest
    rw [hrest] at h1 ⊢
    simp only [List.length_cons] at h1 ⊢
    omega
  · rw [hrest]
    simp only [List.length_cons]
    omega

/-- With at least `n + 1` units of fuel the fuelled digit renderer never hits
the fuel floor, so larger fuel values all agree. -/
lemma decimalReprAux_fuel :
    ∀ (fuel n : Nat), n < fuel → decimalReprAux (fuel + 1) n = decimalReprAux fuel n := by
  intro fuel
  induction fuel with
  | zero => intro n h; exact absurd h (by omega)
  | succ fuel ih =>
    intro n hn
    by_cases h : n < 10
    · rw [decimalReprAux, if_pos h, decimalReprAux, if_pos h]
    · rw [show decimalReprAux (fuel + 1 + 1) n =
            decimalReprAux (fuel + 1) (n / 10) ++ [digitChar (n % 10)] from by
          rw [decimalReprAux, if_neg h],
        show decimalReprAux (fuel + 1) n =
            decimalReprAux fuel (n / 10) ++ [digitChar (n % 10)] from by
          rw [decimalReprAux, if_neg h]]
      rw [ih (n / 10) (by
        have := Nat.div_lt_self (show 0 < n by omega) (show 1 < 10 by omega)
        omega)]

lemma decimalReprAux_length_le :
    ∀ (fuel k n : Nat), 0 < k → n < 10 ^ k → n < fuel →
      (decimalReprAux fuel n).length ≤ k := by
  intro fuel
  induction fuel with
  | zero => intro k n _ _ h; exact absurd h (by omega)
  | succ fuel ih =>
    intro k n hk hn hf
    by_cases h : n < 10
    · rw [decimalReprAux, if_pos h]
      simp
      omega
    · rw [decimalReprAux, if_neg h]
      have hk1 : 0 < k - 1 := by
        by_contra hk0
        have hkk : k = 1 := by omega
        subst hkk
        have h10 : (10 : Nat) ^ 1 = 10 := by norm_num
        omega
      have hdiv : n / 10 < 10 ^ (k - 1) := by
        rw [Nat.div_lt_iff_lt_mul (by norm_num)]
        calc n < 10 ^ k := hn
          _ = 10 ^ (k - 1) * 10 := by
            rw [← pow_succ]
            congr 1
            omega
      have hfd : n / 10 < fuel := by
        have := Nat.div_lt_self (show 0 < n by omega) (show 1 < 10 by omega)
        omega
      have := ih (k - 1) (n / 10) hk1 hdiv hfd
      simp only [List.length_append, List.length_cons, List.length_nil]
      omega

lemma decimalRepr_length_le (k n : Nat) (hk : 0 < k) (hn : n < 10 ^ k) :
    (decimalRepr n).length ≤ k :=
  decimalReprAux_length_le (n + 1) k n hk hn (by omega)

lemma decimalRepr_length_pos (n : Nat) : 0 < (decimalRepr n).length := by
  unfold decimalRepr
  by_cases h : n < 10
  · rw [decimalReprAux, if_pos h]
    simp
  · rw [decimalReprAux, if_neg h]
    simp

lemma warningText_length (n : Nat) :
    (warningText n).length = 403 + (decimalRepr n).length := by
  unfold warningText
  simp only [List.length_append]
  rw [show (("\n\n---\n**⚠️ Response Truncated**\n\nThe response was truncated at ").data).length = 63 from by decide]
  rw [show ((" characters. Original length was ").data).length = 33 from by decide]
  rw [show ((" characters.\n\n**Suggestions to reduce response size:**\n- Add a LIMIT clause to restrict the number of rows (e.g., LIMIT 100)\n- Use WHERE clauses to filter data more specifically\n- Select only necessary columns instead of using SELECT *\n- Consider breaking your query into smaller, more focused queries\n").data).length = 302 from by decide]
  rw [show (decimalRepr CHARACTER_LIMIT).length = 5 from by decide]
  omega

lemma firstWord_isPrefix (s : Str) : (firstWord s).isPrefixOf s = true := by
  rw [List.isPrefixOf_iff_prefix]
  exact List.takeWhile_prefix _

lemma findDML_mem :
    ∀ (s : Str) (prev : Option Char) (kw : Str), findDML prev s = some kw →
      kw = ("SELECT".data) ∨ kw = ("INSERT".data) ∨ kw = ("UPDATE".data) ∨
        kw = ("DELETE".data) := by
  intro s
  induction s with
  | nil => intro prev kw h; simp [findDML] at h
  | cons c rest ih =>
    intro prev kw h
    rw [findDML] at h
    cases hd : dmlAt prev (c :: rest) with
    | some k =>
      rw [hd] at h
      cases h
      unfold dmlAt at hd
      split_ifs at hd <;> simp_all
    | none =>
      rw [hd] at h
      exact ih (some c) kw h

lemma cteScan_mem :
    ∀ (s : Str) (prev : Option Char) (kw : Str), cteScan prev s = some kw →
      kw = ("SELECT".data) ∨ kw = ("INSERT".data) ∨ kw = ("UPDATE".data) ∨
        kw = ("DELETE".data) := by
  intro s
  induction s with
  | nil => intro prev kw h; simp [cteScan] at h
  | cons c rest ih =>
    intro prev kw h
    rw [cteScan] at h
    by_cases hw : wordAt ("WITH".data) prev (c :: rest)
    · rw [if_pos hw] at h
      cases hf : findDML (some 'H') ((c :: rest).drop 4) with
      | some k =>
        rw [hf] at h
        cases h
        exact findDML_mem _ _ _ hf
      | none =>
        rw [hf] at h
        exact ih (some c) kw h
    · rw [if_neg hw] at h
      exact ih (some c) kw h

lemma firstBlocked_eq_find (mode : OperationMode) :
    ∀ (sts : List Str),
      firstBlocked mode sts =
        (sts.find? (fun st => !(isAllowed (detectQueryType st) mode))).map
          (fun st => blockedResult st mode) := by
  intro sts
  induction sts with
  | nil => simp [firstBlocked]
  | cons st rest ih =>
    by_cases h : isAllowed (detectQueryType st) mode
    · rw [firstBlocked, if_pos h, List.find?_cons_of_neg _ (by simp [h]), ih]
    · rw [firstBlocked, if_neg h, List.find?_cons_of_pos _ (by simp [h])]
      rfl

/-- The trailing character of a trimmed, nonempty string is not whitespace. -/
lemma jsTrim_getLast (s : Str) (c : Char) (h : (jsTrim s).getLast? = some c) :
    isJsSpace c = false := by
  unfold jsTrim at h
  rw [List.getLast?_reverse] at h
  cases hY : (s.dropWhile isJsSpace).reverse.dropWhile isJsSpace with
  | nil => rw [hY] at h; simp at h
  | cons y ys =>
    rw [hY] at h
    simp at h
    exact h ▸ dropWhile_eq_cons_head isJsSpace _ y ys hY

/-! ### Claim theorems -/

/-- C1: for every operation kind and both operating modes, `isAllowed`
returns exactly the verdict of the spec's four-step decision order
(`specIsAllowed`, NeverAllowed first) over the bit-exact policy sets; in
particular every NeverAllowed kind is rejected under both modes, every
AlwaysAllowed kind is allowed under both modes, every WriteModeAllowed kind
is allowed iff the mode is WriteEnabled, and `UNKNOWN`, `CREATE`, `ALTER`,
`USE` and `SET` are rejected under both modes.  (The source consults
`ALWAYS_ALLOWED` before `NEVER_ALLOWED`; the two orders agree because the
sets are disjoint.) -/
theorem isAllowed_policy_spec :
    (∀ (qt : QueryType) (mode : OperationMode), isAllowed qt mode = specIsAllowed qt mode) ∧
    (∀ qt ∈ NEVER_ALLOWED, ∀ mode, isAllowed qt mode = false) ∧
    (∀ qt ∈ ALWAYS_ALLOWED, ∀ mode, isAllowed qt mode = true) ∧
    (∀ qt ∈ WRITE_MODE_ALLOWED, ∀ mode,
      (isAllowed qt mode = true ↔ mode = OperationMode.WRITE_ENABLED)) ∧
    (∀ mode, isAllowed QueryType.UNKNOWN mode = false ∧
      isAllowed QueryType.CREATE mode = false ∧
      isAllowed QueryType.ALTER mode = false ∧
      isAllowed QueryType.USE mode = false ∧
      isAllowed QueryType.SET mode = false) := by
  refine ⟨?_, ?_, ?_, ?_, ?_⟩ <;> decide

/-- Witness for C1: `DROP` is rejected even in write mode, and `INSERT` is
allowed in write mode. -/
theorem isAllowed_policy_spec_witness :
    isAllowed QueryType.DROP OperationMode.WRITE_ENABLED = false ∧
    isAllowed QueryType.INSERT OperationMode.WRITE_ENABLED = true :=
  ⟨isAllowed_policy_spec.2.1 QueryType.DROP (by decide) OperationMode.WRITE_ENABLED,
   (isAllowed_policy_spec.2.2.2.1 QueryType.INSERT (by decide)
      OperationMode.WRITE_ENABLED).mpr rfl⟩

/-- C4 counterexample: classification is not always first-token table
lookup.  On `WITH SELECT` the first whitespace-delimited token is `WITH`,
which the keyword table maps to `UNKNOWN`, yet `detectQueryType` returns
`SELECT` via the common-table-expression lookahead. -/
theorem detectQueryType_first_token_counterexample :
    detectQueryType ("WITH SELECT".data) = QueryType.SELECT ∧
    keywordToType (firstWord (toUpperStr ("WITH SELECT".data))) = QueryType.UNKNOWN ∧
    QueryType.SELECT ≠ QueryType.UNKNOWN := by
  refine ⟨?_, ?_, ?_⟩ <;> decide

/-- C4 (amended): classification is total by construction; for every
statement unit whose uppercased text does not start with `WITH`, the result
is obtained by uppercasing, taking the first whitespace-delimited token and
mapping it through the fixed keyword table; the table maps each listed
keyword as the spec states and every other token to `UNKNOWN`. -/
theorem detectQueryType_table :
    (∀ st : Str, ("WITH".data).isPrefixOf (toUpperStr st) = false →
      detectQueryType st = keywordToType (firstWord (toUpperStr st))) ∧
    (keywordToType ("SELECT".data) = QueryType.SELECT ∧
     keywordToType ("INSERT".data) = QueryType.INSERT ∧
     keywordToType ("UPDATE".data) = QueryType.UPDATE ∧
     keywordToType ("DELETE".data) = QueryType.DELETE ∧
     keywordToType ("REPLACE".data) = QueryType.REPLACE ∧
     keywordToType ("CREATE".data) = QueryType.CREATE ∧
     keywordToType ("ALTER".data) = QueryType.ALTER ∧
     keywordToType ("DROP".data) = QueryType.DROP ∧
     keywordToType ("TRUNCATE".data) = QueryType.TRUNCATE ∧
     keywordToType ("START".data) = QueryType.START_TRANSACTION ∧
     keywordToType ("BEGIN".data) = QueryType.START_TRANSACTION ∧
     keywordToType ("COMMIT".data) = QueryType.COMMIT ∧
     keywordToType ("ROLLBACK".data) = QueryType.ROLLBACK ∧
     keywordToType ("SAVEPOINT".data) = QueryType.SAVEPOINT ∧
     keywordToType ("GRANT".data) = QueryType.GRANT ∧
     keywordToType ("REVOKE".data) = QueryType.REVOKE ∧
     keywordToType ("FLUSH".data) = QueryType.FLUSH ∧
     keywordToType ("KILL".data) = QueryType.KILL ∧
     keywordToType ("LOAD".data) = QueryType.LOAD_DATA ∧
     keywordToType ("SHOW".data) = QueryType.SHOW ∧
     keywordToType ("DESCRIBE".data) = QueryType.DESCRIBE ∧
     keywordToType ("DESC".data) = QueryType.DESCRIBE ∧
     keywordToType ("EXPLAIN".data) = QueryType.EXPLAIN ∧
     keywordToType ("USE".data) = QueryType.USE ∧
     keywordToType ("SET".data) = QueryType.SET) ∧
    (∀ kw : Str, kw ∉ RECOGNIZED_KEYWORDS → keywordToType kw = QueryType.UNKNOWN) := by
  refine ⟨?_, by decide, ?_⟩
  · intro st h
    have hek : extractFirstKeyword st = firstWord (toUpperStr st) := by
      unfold extractFirstKeyword
      rw [if_neg (by rw [h]; exact Bool.false_ne_true)]
    rw [detectQueryType, hek]
  · intro kw hkw
    unfold keywordToType
    repeat rw [if_neg (fun heq => hkw (by rw [heq]; decide))]

/-- Witness for C4 (amended), at `select 1` and at the unrecognized token
`FOO`. -/
theorem detectQueryType_table_witness :
    (("WITH".data).isPrefixOf (toUpperStr ("select 1".data)) = false ∧
      detectQueryType ("select 1".data) =
        keywordToType (firstWord (toUpperStr ("select 1".data)))) ∧
    (("FOO".data) ∉ RECOGNIZED_KEYWORDS ∧
      keywordToType ("FOO".data) = QueryType.UNKNOWN) :=
  ⟨⟨by decide, detectQueryType_table.1 ("select 1".data) (by decide)⟩,
   ⟨by decide, detectQueryType_table.2.2 ("FOO".data) (by decide)⟩⟩

/-- C6 counterexample: the lookahead is triggered by the *prefix* `WITH`,
not by the first token being `WITH`.  On `WITHX WITH SELECT` the first token
is `WITHX` (table result `UNKNOWN`), yet the lookahead still runs, finds the
inner whole-word `WITH`, and classifies the unit as `SELECT`. -/
theorem cte_lookahead_counterexample :
    firstWord (toUpperStr ("WITHX WITH SELECT".data)) ≠ ("WITH".data) ∧
    detectQueryType ("WITHX WITH SELECT".data) = QueryType.SELECT ∧
    keywordToType (firstWord (toUpperStr ("WITHX WITH SELECT".data))) =
      QueryType.UNKNOWN := by
  refine ⟨?_, ?_, ?_⟩ <;> decide

/-- C6 (amended): when the first token of the uppercased unit is `WITH`, the
classifier returns the kind of the keyword captured by the lookahead scan,
which is always one of the four DML keywords, and returns `UNKNOWN` when the
scan finds none; no lookahead is applied when the uppercased unit does not
start with the four letters `WITH`; but the lookahead does fire on any unit
whose uppercased text merely starts with those letters, as
`WITHX WITH SELECT` shows. -/
theorem cte_lookahead_spec :
    (∀ (st : Str) (kw : Str), firstWord (toUpperStr st) = ("WITH".data) →
      cteScan none (toUpperStr st) = some kw →
      detectQueryType st = keywordToType kw ∧
      (kw = ("SELECT".data) ∨ kw = ("INSERT".data) ∨ kw = ("UPDATE".data) ∨
        kw = ("DELETE".data))) ∧
    (∀ st : Str, firstWord (toUpperStr st) = ("WITH".data) →
      cteScan none (toUpperStr st) = none →
      detectQueryType st = QueryType.UNKNOWN) ∧
    (∀ st : Str, ("WITH".data).isPrefixOf (toUpperStr st) = false →
      detectQueryType st = keywordToType (firstWord (toUpperStr st))) ∧
    detectQueryType ("WITHX WITH SELECT".data) = QueryType.SELECT := by
  have hpre : ∀ st : Str, firstWord (toUpperStr st) = ("WITH".data) →
      ("WITH".data).isPrefixOf (toUpperStr st) = true := by
    intro st h
    have := firstWord_isPrefix (toUpperStr st)
    rw [h] at this
    exact this
  refine ⟨?_, ?_, ?_, by decide⟩
  · intro st kw hfw hscan
    refine ⟨?_, cteScan_mem _ _ _ hscan⟩
    have hek : extractFirstKeyword st = kw := by
      unfold extractFirstKeyword
      rw [if_pos (hpre st hfw), hscan]
    rw [detectQueryType, hek]
  · intro st hfw hscan
    have hek : extractFirstKeyword st = firstWord (toUpperStr st) := by
      unfold extractFirstKeyword
      rw [if_pos (hpre st hfw), hscan]
    rw [detectQueryType, hek, hfw]
    decide
  · intro st h
    have hek : extractFirstKeyword st = firstWord (toUpperStr st) := by
      unfold extractFirstKeyword
      rw [if_neg (by rw [h]; exact Bool.false_ne_true)]
    rw [detectQueryType, hek]

/-- Witness for C6 (amended), at `WITH SELECT`. -/
theorem cte_lookahead_spec_witness :
    (firstWord (toUpperStr ("WITH SELECT".data)) = ("WITH".data) ∧
      cteScan none (toUpperStr ("WITH SELECT".data)) = some ("SELECT".data)) ∧
    detectQueryType ("WITH SELECT".data) = keywordToType ("SELECT".data) :=
  ⟨⟨by decide, by decide⟩,
   (cte_lookahead_spec.1 ("WITH SELECT".data) ("SELECT".data) (by decide) (by decide)).1⟩

/-- C2: with the warning enabled (as the query tool calls it),
`applyCharacterLimit` never returns more than the 25000-character budget;
an input within the budget is returned unchanged; an input over the budget
yields output of length exactly 25000 ending with the truncation notice
that states the original length and the remediation hints.  The length
hypothesis is the JavaScript string-length invariant (< 2^53), which keeps
the notice far smaller than the budget. -/
theorem applyCharacterLimit_budget (s : Str) (hbound : s.length ≤ 2 ^ 53) :
    (applyCharacterLimit s true).length ≤ CHARACTER_LIMIT ∧
    (s.length ≤ CHARACTER_LIMIT → applyCharacterLimit s true = s) ∧
    (CHARACTER_LIMIT < s.length →
      (applyCharacterLimit s true).length = CHARACTER_LIMIT ∧
      warningText s.length <:+ applyCharacterLimit s true) := by
  have hCL : CHARACTER_LIMIT = 25000 := rfl
  have hwle : (warningText s.length).length ≤ 420 := by
    rw [warningText_length]
    have h17 : s.length < 10 ^ 17 := by
      have hpow : (2 : Nat) ^ 53 < 10 ^ 17 := by norm_num
      omega
    have := decimalRepr_length_le 17 s.length (by norm_num) h17
    omega
  have hwge : 404 ≤ (warningText s.length).length := by
    rw [warningText_length]
    have := decimalRepr_length_pos s.length
    omega
  by_cases hle : s.length ≤ CHARACTER_LIMIT
  · rw [show applyCharacterLimit s true = s from by
      unfold applyCharacterLimit
      rw [if_pos hle]]
    exact ⟨hle, fun _ => rfl, fun hgt => absurd hgt (by omega)⟩
  · have hgt : CHARACTER_LIMIT < s.length := by omega
    have hres : applyCharacterLimit s true =
        s.take (CHARACTER_LIMIT - (warningText s.length).length) ++
          warningText s.length := by
      unfold applyCharacterLimit
      rw [if_neg hle]
      simp only [Bool.not_true, Bool.false_eq_true, if_false]
      rw [if_pos]
      constructor
      · rw [hCL]
        omega
      · rw [List.length_take]
        rw [hCL] at hgt ⊢
        push_cast
        omega
    have hlen : (applyCharacterLimit s true).length = CHARACTER_LIMIT := by
      rw [hres, List.length_append, List.length_take]
      rw [hCL] at hgt ⊢
      omega
    refine ⟨le_of_eq hlen, fun hc => absurd hc (by omega), fun _ => ⟨hlen, ?_⟩⟩
    rw [hres]
    exact ⟨_, rfl⟩

/-- Witness for C2, at a 25001-character input. -/
theorem applyCharacterLimit_budget_witness :
    (List.replicate 25001 'a').length ≤ 2 ^ 53 ∧
    ((applyCharacterLimit (List.replicate 25001 'a') true).length ≤ CHARACTER_LIMIT ∧
      ((List.replicate 25001 'a').length ≤ CHARACTER_LIMIT →
        applyCharacterLimit (List.replicate 25001 'a') true = List.replicate 25001 'a') ∧
      (CHARACTER_LIMIT < (List.replicate 25001 'a').length →
        (applyCharacterLimit (List.replicate 25001 'a') true).length = CHARACTER_LIMIT ∧
        warningText (List.replicate 25001 'a').length <:+
          applyCharacterLimit (List.replicate 25001 'a') true)) :=
  ⟨by rw [List.length_replicate]; norm_num,
   applyCharacterLimit_budget (List.replicate 25001 'a')
     (by rw [List.length_replicate]; norm_num)⟩

/-- C5: for a request whose normalized text splits into at least one
statement unit, the batch is authorized iff every unit is authorized; units
are evaluated in source order, the overall verdict is the `blockedResult`
(kind, reason, suggestion) of the first rejecting unit, and when no unit
rejects the overall kind is that of the first statement. -/
theorem parseQuery_multi_statement (q : Str) (mode : OperationMode)
    (first : Str) (rest : List Str)
    (hsplit : splitStatements (normalizeQuery q) = first :: rest) :
    ((parseQuery q mode).allowed = true ↔
      ∀ st ∈ first :: rest, isAllowed (detectQueryType st) mode = true) ∧
    (∀ stR, (first :: rest).find?
        (fun st => !(isAllowed (detectQueryType st) mode)) = some stR →
      parseQuery q mode = blockedResult stR mode) ∧
    ((first :: rest).find?
        (fun st => !(isAllowed (detectQueryType st) mode)) = none →
      parseQuery q mode =
        { queryType := detectQueryType first, allowed := true,
          reason := none, suggestion := none }) := by
  have hpq : parseQuery q mode =
      match firstBlocked mode (first :: rest) with
      | some result => result
      | none => { queryType := detectQueryType first, allowed := true,
                  reason := none, suggestion := none } := by
    simp only [parseQuery, hsplit]
  rw [firstBlocked_eq_find] at hpq
  cases hf : (first :: rest).find? (fun st => !(isAllowed (detectQueryType st) mode)) with
  | some stR =>
    rw [hf] at hpq
    simp only [Option.map_some'] at hpq
    have hmem := List.mem_of_find?_eq_some hf
    have hrej := List.find?_some hf
    simp only [Bool.not_eq_eq_eq_not, Bool.not_true] at hrej
    refine ⟨?_, ?_, ?_⟩
    · rw [hpq]
      simp only [blockedResult]
      constructor
      · intro hfalse
        exact absurd hfalse (by simp)
      · intro hall
        exact absurd (hall stR hmem) (by simp [hrej])
    · intro stR2 hf2
      cases hf2
      exact hpq
    · intro hnone
      cases hnone
  | none =>
    rw [hf] at hpq
    simp only [Option.map_none'] at hpq
    have hall := List.find?_eq_none.mp hf
    refine ⟨?_, ?_, ?_⟩
    · rw [hpq]
      simp only [true_iff]
      intro st hst
      have := hall st hst
      simpa using this
    · intro stR2 hf2
      cases hf2
    · intro _
      exact hpq

/-- Witness for C5: `SELECT 1; DROP TABLE t` in read-only mode is rejected
with the verdict of the `DROP` unit. -/
theorem parseQuery_multi_statement_witness :
    splitStatements (normalizeQuery ("SELECT 1; DROP TABLE t".data)) =
      [("SELECT 1".data), ("DROP TABLE t".data)] ∧
    [("SELECT 1".data), ("DROP TABLE t".data)].find?
        (fun st => !(isAllowed (detectQueryType st) OperationMode.READ_ONLY)) =
      some ("DROP TABLE t".data) ∧
    parseQuery ("SELECT 1; DROP TABLE t".data) OperationMode.READ_ONLY =
      blockedResult ("DROP TABLE t".data) OperationMode.READ_ONLY := by
  have hsplit : splitStatements (normalizeQuery ("SELECT 1; DROP TABLE t".data)) =
      [("SELECT 1".data), ("DROP TABLE t".data)] := by
    simp only [normalizeQuery, removeComments, normalizeWhitespace]
    simp +decide [removeLineComments, removeBlockComments, collapseWs, jsTrim,
      dropToBlockEnd, isJsSpace, splitStatements, splitChar, List.dropWhile]
  exact ⟨hsplit, by decide,
    (parseQuery_multi_statement ("SELECT 1; DROP TABLE t".data) OperationMode.READ_ONLY
      ("SELECT 1".data) [("DROP TABLE t".data)] hsplit).2.1
      ("DROP TABLE t".data) (by decide)⟩

/-- C10: an input whose normalized form contains no non-empty statement unit
is rejected by `parseQuery` with kind `UNKNOWN`, the reason `Empty or
invalid query` and the suggestion to provide a valid SQL query; the executor
then throws the corresponding `Query blocked` error without calling the
database collaborator. -/
theorem parseQuery_empty_rejected (q : Str) (mode : OperationMode)
    (h : splitStatements (normalizeQuery q) = []) :
    parseQuery q mode =
      { queryType := QueryType.UNKNOWN, allowed := false,
        reason := some ("Empty or invalid query".data),
        suggestion := some ("Please provide a valid SQL query.".data) } ∧
    (∀ (db : Str → NativeRows × List Field) (t : Nat),
      QueryExecutor.executeQuery db t mode q =
        Except.error
          (("Query blocked: Empty or invalid query\n\nPlease provide a valid SQL query.".data))) := by
  have hpq : parseQuery q mode =
      { queryType := QueryType.UNKNOWN, allowed := false,
        reason := some ("Empty or invalid query".data),
        suggestion := some ("Please provide a valid SQL query.".data) } := by
    simp only [parseQuery, h]
  refine ⟨hpq, fun db t => ?_⟩
  unfold QueryExecutor.executeQuery
  rw [hpq]
  simp only [Bool.false_eq_true, if_false, Option.getD_some]
  rfl

/-- Witness for C10, at an input consisting of comments, whitespace and
semicolons only. -/
theorem parseQuery_empty_rejected_witness :
    splitStatements (normalizeQuery (" -- just a comment\n ; /* block */ ; ".data)) = [] ∧
    parseQuery (" -- just a comment\n ; /* block */ ; ".data) OperationMode.READ_ONLY =
      { queryType := QueryType.UNKNOWN, allowed := false,
        reason := some ("Empty or invalid query".data),
        suggestion := some ("Please provide a valid SQL query.".data) } := by
  have h : splitStatements (normalizeQuery (" -- just a comment\n ; /* block */ ; ".data)) = [] := by
    simp only [normalizeQuery, removeComments, normalizeWhitespace]
    simp +decide [removeLineComments, removeBlockComments, collapseWs, jsTrim,
      dropToBlockEnd, isJsSpace, splitStatements, splitChar, List.dropWhile]
  exact ⟨h, (parseQuery_empty_rejected _ OperationMode.READ_ONLY h).1⟩

/-- C9: when every statement unit is authorized, the executor makes exactly
one call to the database collaborator and hands it the raw query text — not
the normalized text — as the recorded call trace `[q]` shows; the
accompanying closed facts exhibit a raw query that the normalizer would have
altered (a line comment) yet which is authorized and forwarded verbatim. -/
theorem executor_forwards_raw_query :
    (∀ (db : Str → NativeRows × List Field) (t : Nat) (mode : OperationMode) (q : Str),
      (parseQuery q mode).allowed = true →
      QueryExecutor.executeQuery db t mode q =
        Except.ok (formatResult (db q).1 (db q).2 t, [q])) ∧
    (parseQuery ("SELECT 1 -- note".data) OperationMode.READ_ONLY).allowed = true ∧
    normalizeQuery ("SELECT 1 -- note".data) ≠ ("SELECT 1 -- note".data) := by
  have hnorm : normalizeQuery ("SELECT 1 -- note".data) = ("SELECT 1".data) := by
    simp only [normalizeQuery, removeComments, normalizeWhitespace]
    simp +decide [removeLineComments, removeBlockComments, collapseWs, jsTrim,
      dropToBlockEnd, isJsSpace, List.dropWhile]
  refine ⟨?_, ?_, ?_⟩
  · intro db t mode q h
    unfold QueryExecutor.executeQuery
    simp only [h, if_true]
  · rw [show parseQuery ("SELECT 1 -- note".data) OperationMode.READ_ONLY =
        { queryType := QueryType.SELECT, allowed := true,
          reason := none, suggestion := none } from by
      simp only [parseQuery, hnorm]
      decide]
  · rw [hnorm]
    decide

/-- Witness for C9: a concrete collaborator receives exactly the raw
commented query. -/
theorem executor_forwards_raw_query_witness :
    (parseQuery ("SELECT 1 -- note".data) OperationMode.READ_ONLY).allowed = true ∧
    QueryExecutor.executeQuery (fun _ => (NativeRows.ok 0 0 0, [])) 3
        OperationMode.READ_ONLY ("SELECT 1 -- note".data) =
      Except.ok (formatResult (NativeRows.ok 0 0 0) [] 3, [("SELECT 1 -- note".data)]) := by
  have hallowed : (parseQuery ("SELECT 1 -- note".data) OperationMode.READ_ONLY).allowed = true := by
    have hnorm : normalizeQuery ("SELECT 1 -- note".data) = ("SELECT 1".data) := by
      simp only [normalizeQuery, removeComments, normalizeWhitespace]
      simp +decide [removeLineComments, removeBlockComments, collapseWs, jsTrim,
        dropToBlockEnd, isJsSpace, List.dropWhile]
    simp only [parseQuery, hnorm]
    decide
  exact ⟨hallowed,
    executor_forwards_raw_query.1 (fun _ => (NativeRows.ok 0 0 0, [])) 3
      OperationMode.READ_ONLY ("SELECT 1 -- note".data) hallowed⟩

lemma jsTrim_subset (s : Str) : ∀ c ∈ jsTrim s, c ∈ s := by
  intro c hc
  unfold jsTrim at hc
  rw [List.mem_reverse] at hc
  have h1 : c ∈ (s.dropWhile isJsSpace).reverse :=
    (List.dropWhile_sublist _).subset hc
  rw [List.mem_reverse] at h1
  exact (List.dropWhile_sublist _).subset h1

/-- C8: normalization and splitting are purely lexical and quote-unaware.
Every produced statement unit is non-empty, free of the terminator `;` and
trimmed; the unit sequence is a subsequence (hence source-ordered) of the
trimmed split segments; the normalized text never starts or ends with
whitespace, every surviving whitespace character is a single space and no
two whitespace characters are adjacent; and comment spans and terminator
characters are processed even inside quoted string literals, as the three
closed evaluations show. -/
theorem normalization_splitting_lexical :
    (∀ (q : Str) (u : Str), u ∈ splitStatements q →
      u ≠ [] ∧ (∀ c ∈ u, c ≠ ';') ∧ jsTrim u = u) ∧
    (∀ q : Str, List.Sublist (splitStatements q) ((splitChar ';' q).map jsTrim)) ∧
    (∀ (q : Str) (c : Char), (normalizeQuery q).head? = some c → isJsSpace c = false) ∧
    (∀ (q : Str) (c : Char), (normalizeQuery q).getLast? = some c → isJsSpace c = false) ∧
    (∀ q : Str, ∀ c ∈ normalizeQuery q, isJsSpace c = true → c = ' ') ∧
    (∀ q : Str, List.Chain'
      (fun a b => ¬(isJsSpace a = true ∧ isJsSpace b = true)) (normalizeQuery q)) ∧
    (normalizeQuery (("SELECT ".data) ++ [sq] ++ ("a--b".data) ++ [sq] ++ (" FROM t".data)) =
      ("SELECT ".data) ++ [sq] ++ ("a".data)) ∧
    (normalizeQuery (("SELECT ".data) ++ [sq] ++ ("x /* y */ z".data) ++ [sq]) =
      ("SELECT ".data) ++ [sq] ++ ("x z".data) ++ [sq]) ∧
    (splitStatements (("SELECT ".data) ++ [sq] ++ ("a;b".data) ++ [sq]) =
      [("SELECT ".data) ++ [sq] ++ ("a".data), ("b".data) ++ [sq]]) := by
  refine ⟨?_, ?_, ?_, ?_, ?_, ?_, ?_, ?_, ?_⟩
  · intro q u hu
    unfold splitStatements at hu
    obtain ⟨humap, hne⟩ := List.mem_filter.mp hu
    obtain ⟨seg, hseg, rfl⟩ := List.mem_map.mp humap
    refine ⟨by simpa using hne, ?_, jsTrim_idem seg⟩
    intro c hc hcs
    subst hcs
    exact splitChar_no_sep ';' q seg hseg (jsTrim_subset seg ';' hc)
  · intro q
    exact List.filter_sublist _
  · intro q c h
    exact collapseWs_head_not_space _ c h (fun a b hab => jsTrim_head _ a b hab)
  · intro q c h
    exact collapseWs_getLast _ (fun d hd => jsTrim_getLast _ d hd) c h
  · intro q
    exact collapseWs_space _
  · intro q
    exact collapseWs_chain _
  · simp only [normalizeQuery, removeComments, normalizeWhitespace]
    simp +decide [removeLineComments, removeBlockComments, collapseWs, jsTrim,
      dropToBlockEnd, isJsSpace, List.dropWhile]
  · simp only [normalizeQuery, removeComments, normalizeWhitespace]
    simp +decide [removeLineComments, removeBlockComments, collapseWs, jsTrim,
      dropToBlockEnd, isJsSpace, List.dropWhile]
  · simp +decide [splitStatements, splitChar, jsTrim, isJsSpace, List.dropWhile]

/-- Witness for C8: the unit `b'` produced by splitting inside a string
literal is non-empty, terminator-free and trimmed, and the normalization of
a padded query starts with a non-whitespace character. -/
theorem normalization_splitting_lexical_witness :
    ((("b".data) ++ [sq]) ∈
        splitStatements (("SELECT ".data) ++ [sq] ++ ("a;b".data) ++ [sq]) ∧
      ((("b".data) ++ [sq]) ≠ [] ∧ (∀ c ∈ ("b".data) ++ [sq], c ≠ ';') ∧
        jsTrim (("b".data) ++ [sq]) = ("b".data) ++ [sq])) ∧
    ((normalizeQuery ("  SELECT   1  ".data)).head? = some 'S' ∧
      isJsSpace 'S' = false) := by
  have hmem : (("b".data) ++ [sq]) ∈
      splitStatements (("SELECT ".data) ++ [sq] ++ ("a;b".data) ++ [sq]) := by
    simp +decide [splitStatements, splitChar, jsTrim, isJsSpace, List.dropWhile]
  have hhead : (normalizeQuery ("  SELECT   1  ".data)).head? = some 'S' := by
    simp only [normalizeQuery, removeComments, normalizeWhitespace]
    simp +decide [removeLineComments, removeBlockComments, collapseWs, jsTrim,
      dropToBlockEnd, isJsSpace, List.dropWhile]
  exact ⟨⟨hmem, normalization_splitting_lexical.1 _ _ hmem⟩,
    ⟨hhead, normalization_splitting_lexical.2.2.1 _ 'S' hhead⟩⟩

lemma formatAsMarkdown_big_length :
    ∀ r : Str, r.length = 9000 →
      (formatAsMarkdown
        (formatResult
          (NativeRows.tabular (List.replicate 3 [(("c".data), Cell.str r)]))
          [⟨("c".data), some 253⟩] 5) QueryType.SELECT).length = 27077 := by
  intro r hr
  have hrow : List.lookup ("c".data) [(("c".data), Cell.str r)] = some (Cell.str r) := by
    simp [List.lookup]
  simp only [formatResult, formatAsMarkdown, List.map_replicate, List.map_cons, List.map_nil,
    hrow, Option.getD_some, List.length_replicate]
  norm_num [formatMarkdownTable, formatCell, List.intercalate, List.length_append,
    List.length_flatten, List.map_replicate, List.length_replicate, decimalRepr,
    decimalReprAux, getFieldTypeName, hr]

/-- C3 (code bug): the `truncated` flag can never become true.  Every branch
of `QueryExecutor.formatResult` hard-codes `truncated: false`,
`applyCharacterLimit` returns only text and updates no flag, and
`formatAsJSON` reports exactly that flag in the metadata block — so even for
a result whose rendered text (27077 characters here) exceeds the
25000-character budget and is in fact truncated, the result carries and the
metadata reports `truncated = false`, contradicting the documented
`truncated = true iff the pre-truncation length exceeded the budget`. -/
theorem truncated_flag_always_false :
    (∀ (rows : NativeRows) (fields : List Field) (t : Nat),
      (formatResult rows fields t).truncated = some false) ∧
    (∀ result : QueryResult,
      metadataTruncated (jsonOutput result) =
        some (Json.bool (result.truncated.getD false))) ∧
    (CHARACTER_LIMIT <
      (formatAsMarkdown
        (formatResult
          (NativeRows.tabular
            (List.replicate 3 [(("c".data), Cell.str (List.replicate 9000 'a'))]))
          [⟨("c".data), some 253⟩] 5) QueryType.SELECT).length ∧
      (formatResult
        (NativeRows.tabular
          (List.replicate 3 [(("c".data), Cell.str (List.replicate 9000 'a'))]))
        [⟨("c".data), some 253⟩] 5).truncated = some false) := by
  refine ⟨?_, ?_, ?_, rfl⟩
  · intro rows fields t
    cases rows <;> rfl
  · intro result
    rfl
  · rw [formatAsMarkdown_big_length (List.replicate 9000 'a')
      (List.length_replicate 9000 'a')]
    decide

/-- C7 counterexample: the real `mysql2` lock-wait-timeout error (an `Error`
whose message contains the word `timeout`) is routed by `handleQueryError`
to the generic query-timeout message, not to the dedicated
`ER_LOCK_WAIT_TIMEOUT` message of `handleMySQLError`. -/
theorem lock_timeout_counterexample :
    handleQueryError lockWaitError 30000 = handleTimeoutError 30000 ∧
    handleQueryError lockWaitError 30000 ≠ handleMySQLError lockWaitError := by
  constructor
  · decide
  · decide

/-- C7 (amended): `handleQueryError` returns exactly one translation for
every failure; a failure carrying the MySQL code `ER_LOCK_WAIT_TIMEOUT` is
translated to the dedicated lock-wait-timeout message only when the
timeout sniff (`isTimeoutError`, which fires on any `Error` whose message
contains `timeout` or `ETIMEDOUT` — as the real driver message does) does
not claim it first; otherwise it receives the TimeoutError message. -/
theorem lock_timeout_routing (e : ThrownError) (t : Nat)
    (hcode : e.code = some ("ER_LOCK_WAIT_TIMEOUT".data))
    (hzod : e.isZodError = false) :
    handleQueryError e t =
      if isTimeoutError e then handleTimeoutError t
      else ("**Error: Lock wait timeout exceeded**\n\nThe query waited too long to acquire a table lock.\n\n**Suggestions:**\n- Try the query again - another transaction may be holding the lock\n- Check for long-running queries that might be blocking this operation\n- Consider using smaller transactions\n- Contact your database administrator if the issue persists\n".data) := by
  have hmy : isMySQLError e = true := by simp [isMySQLError, hcode]
  by_cases ht : isTimeoutError e
  · rw [if_pos ht]
    unfold handleQueryError
    rw [if_pos ht]
  · rw [if_neg ht]
    unfold handleQueryError
    rw [if_neg ht, if_neg (by simp [hzod]), if_pos hmy]
    unfold handleMySQLError
    rw [if_neg (by simp [hmy])]
    simp only [hcode, Option.getD_some]
    repeat rw [if_neg (by decide)]
    rw [if_pos trivial]

/-- Witness for C7 (amended): a lock-wait-timeout failure that is not an
`Error` instance escapes the timeout sniff and receives the dedicated
message. -/
theorem lock_timeout_routing_witness :
    plainLockErr.code = some ("ER_LOCK_WAIT_TIMEOUT".data) ∧
    plainLockErr.isZodError = false ∧
    handleQueryError plainLockErr 500 =
      (if isTimeoutError plainLockErr then handleTimeoutError 500
       else ("**Error: Lock wait timeout exceeded**\n\nThe query waited too long to acquire a table lock.\n\n**Suggestions:**\n- Try the query again - another transaction may be holding the lock\n- Check for long-running queries that might be blocking this operation\n- Consider using smaller transactions\n- Contact your database administrator if the issue persists\n".data)) :=
  ⟨rfl, rfl, lock_timeout_routing plainLockErr 500 rfl rfl⟩

end MySQLMCP
